import Mathlib

/-!
Verification development for the `auto_news_scraper` repository.

The pipeline in `src/main.py` is shallowly embedded here:

* `DatabaseManager` (the dedup store backed by the `posted_articles` table)
  becomes a list of `(url, summary)` pairs with `is_posted` / `add_article`;
  the `INSERT` into a table whose `url` column is the primary key, with
  `sqlite3.IntegrityError` silently swallowed, becomes an append guarded by
  a presence check.
* `NewsBot.query_llm` becomes `query_llm` over an environment that models the
  generation backend (`LLMReply`: an HTTP status plus body, or a transport
  exception).  A mode other than "summary" or "title" leaves the Python local
  `system_instruction` unassigned, so the f-string interpolation raises an
  unbound-local error before the request is even built; this is modelled by
  `Except.error`.
* The body of the per-entry loop in `NewsBot.process_rss` becomes
  `processEntry`; each external effect is logged as an `Action` tagged with
  the link of the entry being processed.  Exceptions raised by the Discord
  `send` calls are modelled by the `err` field and propagate to the
  per-source handler (`process_rss` discards them, like the `except` clause).
* `NewsBot.news_loop` becomes `news_loop`, folding `process_rss` over the
  fixed `NEWS_SOURCES` registry in its insertion order.
-/

namespace AutoNews

/-- A parsed feed entry as used by `process_rss`: `entry.link`, `entry.title`,
and the optional `description` / `summary` fields read via `entry.get`. -/
structure Entry where
  link : String
  title : String
  description : Option String
  summary : Option String
deriving DecidableEq

/-- Outcome of one POST to the generation backend: an HTTP response with a
status and the decoded `response` field, or a transport exception. -/
inductive LLMReply where
  | http (status : Nat) (response : String)
  | exn (msg : String)
deriving DecidableEq

/-- The external collaborators of the pipeline: Discord channel lookup,
feed fetching, the generation backend (keyed by the full prompt) and the
Discord `send` call (`none` = delivered, `some e` = exception raised). -/
structure Env where
  chanExists : Nat → Bool
  fetch : String → List Entry
  llm : String → LLMReply
  send : Nat → String → Option String

/-- The `mode == "summary"` instruction string of `query_llm`. -/
def summaryInstruction : String :=
  "Read the following news snippet. 1. Identify the language and translate it into English if needed. 2. Extract the key facts and output them as \x27Key Points\x27 in 3 bullet points or less. Do not add any introductory text like \x27Here is the summary\x27. Just the bullet points.:\n\n"

/-- The `mode == "title"` instruction string of `query_llm`. -/
def titleInstruction : String :=
  "Translate to English and create a short, catchy headline (under 10 words) for this news:\n\n"

/-- The `if mode == "summary" / elif mode == "title"` assignment of the local
`system_instruction`; any other mode leaves it unassigned (`none`). -/
def system_instruction (mode : String) : Option String :=
  if mode = "summary" then some summaryInstruction
  else if mode = "title" then some titleInstruction
  else none

/-- Model of `str.strip()`: drop whitespace from both ends of the string. -/
def pyStrip (s : String) : String :=
  String.mk (((s.data.dropWhile Char.isWhitespace).reverse.dropWhile Char.isWhitespace).reverse)

/-- The `try` block of `query_llm`: POST the prompt, return the stripped
`response` field on status 200, the string `"Error: <status>"` on any other
status, and `"LLM Error: <e>"` when a transport exception is caught. -/
def llmRaw (env : Env) (prompt : String) : String :=
  match env.llm prompt with
  | .http st r => if st = 200 then pyStrip r else "Error: " ++ toString st
  | .exn e => "LLM Error: " ++ e

/-- Embedding of `NewsBot.query_llm`: build the prompt from the mode's instruction and the
text and run the request.  For a mode with no instruction the Python code
raises an unbound-local error at the f-string, modelled as `Except.error`. -/
def query_llm (env : Env) (text mode : String) : Except String String :=
  match system_instruction mode with
  | some instr => Except.ok (llmRaw env (instr ++ text))
  | none => Except.error "UnboundLocalError: system_instruction"

/-- Helper for splitting a character list at the first `>` : returns the
characters strictly before it and the characters strictly after it. -/
def splitAtGt : List Char → Option (List Char × List Char)
  | [] => none
  | c :: cs =>
    if c = '>' then some ([], cs)
    else
      match splitAtGt cs with
      | some p => some (c :: p.1, p.2)
      | none => none

/-- Fuelled scanner for `re.sub(r'<[^>]+>', '', s)`: at each `<`, the regex
consumes up to the first following `>` provided at least one character lies
between; otherwise the `<` is kept and scanning resumes after it.  The fuel
is always called with at least the length of the list, which suffices. -/
def stripTagsGo : Nat → List Char → List Char
  | _, [] => []
  | 0, l => l
  | fuel + 1, c :: cs =>
    if c = '<' then
      match splitAtGt cs with
      | some p => if p.1.isEmpty then c :: stripTagsGo fuel cs else stripTagsGo fuel p.2
      | none => c :: stripTagsGo fuel cs
    else c :: stripTagsGo fuel cs

/-- Model of `re.sub(r'<[^>]+>', '', s)` on strings. -/
def stripHtml (s : String) : String :=
  String.mk (stripTagsGo s.data.length s.data)

/-- The Python `a or b` fallback over possibly-missing, possibly-empty
strings: a present non-empty string wins, otherwise the fallback. -/
def orElseStr (a : Option String) (b : String) : String :=
  match a with
  | some s => if s = "" then b else s
  | none => b

/-- Model of `entry.get('description') or entry.get('summary') or entry.title`. -/
def rawTextOf (ent : Entry) : String :=
  orElseStr ent.description (orElseStr ent.summary ent.title)

/-- Model of `if raw_text and "<" in raw_text: raw_text = re.sub(...)`;
the `"<" in raw_text` membership test is char membership in the text. -/
def prepText (s : String) : String :=
  if s = "" then s
  else if s.data.contains '<' then stripHtml s else s

/-- The dedup store contents: the rows of `posted_articles` as
`(url, summary)` pairs in insertion order. -/
abbrev DB := List (String × String)

/-- Embedding of `DatabaseManager.is_posted`: `SELECT 1 FROM posted_articles WHERE url = ?`. -/
def is_posted (db : DB) (url : String) : Bool :=
  db.any fun r => r.1 == url

/-- Embedding of `DatabaseManager.add_article`: `INSERT INTO posted_articles`; the
primary-key constraint on `url` makes a duplicate insert raise
`IntegrityError`, which the method swallows, leaving the table unchanged. -/
def add_article (db : DB) (url s : String) : DB :=
  if is_posted db url then db else db ++ [(url, s)]

/-- Number of rows of the store holding the given url. -/
def countUrl (db : DB) (url : String) : Nat :=
  (db.filter fun r => r.1 == url).length

/-- Store states reachable through the store's own operations, starting from
the empty table created by `create_table`. -/
inductive Reachable : DB → Prop where
  | empty : Reachable []
  | step (db : DB) (url s : String) : Reachable db → Reachable (add_article db url s)

/-- Observable external effects of the per-entry pipeline, each tagged with
the link of the entry whose iteration produced it. -/
inductive Action where
  | llmCall (itemUrl : String) (mode : String) (prompt : String)
  | sendMsg (itemUrl : String) (channel : Nat) (message : String)
  | record (itemUrl : String) (summaryText : String)
deriving DecidableEq

/-- The link of the entry whose loop iteration produced the action. -/
def actUrl : Action → String
  | .llmCall u _ _ => u
  | .sendMsg u _ _ => u
  | .record u _ => u

/-- Whether an action is an `add_article` record. -/
def isRecord : Action → Bool
  | .record _ _ => true
  | _ => false

/-- Number of summary-mode enrichment calls performed for the given url. -/
def summaryCalls (acts : List Action) (u : String) : Nat :=
  (acts.filter fun a =>
    match a with
    | .llmCall u' m _ => u' == u && m == "summary"
    | _ => false).length

/-- The channels to which a delivery was attempted, in order. -/
def sentChannels (acts : List Action) : List Nat :=
  acts.filterMap fun a =>
    match a with
    | .sendMsg _ c _ => some c
    | _ => none

/-- The actions produced by the loop iteration of the given url. -/
def actsFor (u : String) (acts : List Action) : List Action :=
  acts.filter fun a => actUrl a == u

/-- The channel id of the shared destination. -/
def GLOBAL_CHANNEL_ID : Nat := 1400070228666486837

/-- Result of running part of a poll cycle: the store contents, the logged
actions, and the exception (if any) escaping towards the per-source handler. -/
structure EntriesRes where
  db : DB
  acts : List Action
  err : Option String
deriving DecidableEq

/-- Result of a completed (per-source or whole-cycle) unit of work, after the
per-source `except` clause has swallowed any exception. -/
structure CycleRes where
  db : DB
  acts : List Action
deriving DecidableEq

/-- The headline produced for an entry: `query_llm(entry.title, mode="title")`. -/
def headlineOf (env : Env) (ent : Entry) : String :=
  llmRaw env (titleInstruction ++ ent.title)

/-- The key points produced for an entry:
`query_llm(raw_text, mode="summary")` after the tag strip. -/
def keyPointsOf (env : Env) (ent : Entry) : String :=
  llmRaw env (summaryInstruction ++ prepText (rawTextOf ent))

/-- The message sent to the source channel:
`f"**{title_en}**\n\n{key_points}\n\n{url}"`. -/
def messageOf (env : Env) (ent : Entry) : String :=
  "**" ++ headlineOf env ent ++ "**\n\n" ++ keyPointsOf env ent ++ "\n\n" ++ ent.link

/-- The body of the `for entry in feed.entries[:3]` loop of `process_rss`
for a single entry: skip if posted, strip markup from the body text, run the
two enrichment calls, send to the source channel, send the prefixed message
to the global channel when it is found, and record the article.  A `some`
in `err` is an exception escaping this iteration. -/
def processEntry (env : Env) (country : String) (chanId : Nat) (db : DB) (ent : Entry) :
    EntriesRes :=
  let url := ent.link
  if is_posted db url then ⟨db, [], none⟩
  else
    let text := prepText (rawTextOf ent)
    match query_llm env text "summary" with
    | .error e => ⟨db, [Action.llmCall url "summary" (summaryInstruction ++ text)], some e⟩
    | .ok keyPoints =>
      match query_llm env ent.title "title" with
      | .error e =>
          ⟨db, [Action.llmCall url "summary" (summaryInstruction ++ text),
                Action.llmCall url "title" (titleInstruction ++ ent.title)], some e⟩
      | .ok titleEn =>
        let message := "**" ++ titleEn ++ "**\n\n" ++ keyPoints ++ "\n\n" ++ url
        let baseActs := [Action.llmCall url "summary" (summaryInstruction ++ text),
                         Action.llmCall url "title" (titleInstruction ++ ent.title),
                         Action.sendMsg url chanId message]
        match env.send chanId message with
        | some e => ⟨db, baseActs, some e⟩
        | none =>
          if env.chanExists GLOBAL_CHANNEL_ID then
            let gmsg := "[" ++ country ++ "] " ++ message
            match env.send GLOBAL_CHANNEL_ID gmsg with
            | some e => ⟨db, baseActs ++ [Action.sendMsg url GLOBAL_CHANNEL_ID gmsg], some e⟩
            | none =>
                ⟨add_article db url keyPoints,
                 baseActs ++ [Action.sendMsg url GLOBAL_CHANNEL_ID gmsg,
                              Action.record url keyPoints], none⟩
          else
            ⟨add_article db url keyPoints,
             baseActs ++ [Action.record url keyPoints], none⟩

/-- The `for entry in feed.entries[:3]` loop: entries are processed in feed
order; an exception escaping one iteration aborts the remaining iterations
and propagates (to be caught by the per-source handler). -/
def runEntries (env : Env) (country : String) (chanId : Nat) :
    DB → List Entry → EntriesRes
  | db, [] => ⟨db, [], none⟩
  | db, ent :: rest =>
    let r := processEntry env country chanId db ent
    match r.err with
    | some e => ⟨r.db, r.acts, some e⟩
    | none =>
      let r2 := runEntries env country chanId r.db rest
      ⟨r2.db, r.acts ++ r2.acts, r2.err⟩

/-- One source as configured in the `NEWS_SOURCES` dict. -/
structure SourceConfig where
  channel_id : Option Nat
  rss_url : String
deriving DecidableEq

/-- The `try` block of `NewsBot.process_rss`: bail out when the channel id is
missing or the channel is not found, fetch the feed, treat an empty entry
list as nothing to do, and run the loop over the newest three entries.  The
`err` field is the exception (if any) reaching the `except` clause. -/
def process_rss_full (env : Env) (country : String) (config : SourceConfig) (db : DB) :
    EntriesRes :=
  match config.channel_id with
  | none => ⟨db, [], none⟩
  | some cid =>
    if env.chanExists cid then
      let entries := env.fetch config.rss_url
      if entries.isEmpty then ⟨db, [], none⟩
      else runEntries env country cid db (entries.take 3)
    else ⟨db, [], none⟩

/-- Embedding of `NewsBot.process_rss`: the whole body runs inside `try`, and the
`except Exception` clause only logs, so no exception escapes to the caller. -/
def process_rss (env : Env) (country : String) (config : SourceConfig) (db : DB) :
    CycleRes :=
  let r := process_rss_full env country config db
  ⟨r.db, r.acts⟩

/-- The `for country, config in NEWS_SOURCES.items()` loop of `news_loop`. -/
def processSources (env : Env) : List (String × SourceConfig) → DB → CycleRes
  | [], db => ⟨db, []⟩
  | (country, config) :: rest, db =>
    let r := process_rss env country config db
    let r2 := processSources env rest r.db
    ⟨r2.db, r.acts ++ r2.acts⟩

/-- The `NEWS_SOURCES` registry entries, in dict insertion order. -/
def srcJP : String × SourceConfig :=
  ("JP", ⟨some 1385660657700966510, "https://www3.nhk.or.jp/nhkworld/en/news/list.xml"⟩)

/-- The `"US"` registry entry. -/
def srcUS : String × SourceConfig :=
  ("US", ⟨some 1385660708506697959, "https://www.cbsnews.com/latest/rss/world"⟩)

/-- The `"GB"` registry entry. -/
def srcGB : String × SourceConfig :=
  ("GB", ⟨some 1385660728131846354, "https://feeds.bbci.co.uk/news/world/rss.xml"⟩)

/-- The `"FR"` registry entry. -/
def srcFR : String × SourceConfig :=
  ("FR", ⟨some 1385660688277700729, "https://www.france24.com/en/rss"⟩)

/-- The `"DE"` registry entry. -/
def srcDE : String × SourceConfig :=
  ("DE", ⟨some 1385660749266944040, "https://rss.dw.com/xml/rss-en-world"⟩)

/-- The `"IT"` registry entry. -/
def srcIT : String × SourceConfig :=
  ("IT", ⟨some 1385660782313996428, "https://www.ansa.it/sito/ansait_rss/english_news.xml"⟩)

/-- The `"CA"` registry entry. -/
def srcCA : String × SourceConfig :=
  ("CA", ⟨some 1385660814731776332, "https://www.cbc.ca/cmlink/rss-world"⟩)

/-- The `"IN"` registry entry. -/
def srcIN : String × SourceConfig :=
  ("IN", ⟨some 1385660837095804959, "https://timesofindia.indiatimes.com/rssfeeds/296589292.cms"⟩)

/-- The `"CN"` registry entry. -/
def srcCN : String × SourceConfig :=
  ("CN", ⟨some 1385660867231875173, "https://www.scmp.com/rss/318206/feed"⟩)

/-- The full `NEWS_SOURCES` registry in dict insertion order. -/
def NEWS_SOURCES : List (String × SourceConfig) :=
  [srcJP, srcUS, srcGB, srcFR, srcDE, srcIT, srcCA, srcIN, srcCN]

/-- One iteration of `NewsBot.news_loop`: one poll cycle over all sources. -/
def news_loop (env : Env) (db : DB) : CycleRes :=
  processSources env NEWS_SOURCES db

/-! ### Concrete fixtures used by counterexamples and witnesses -/

/-- A fresh feed item with a plain-text body. -/
def entryU1 : Entry := ⟨"u1", "T", some "d1", none⟩

/-- A fresh feed item from the second source. -/
def entryU2 : Entry := ⟨"u2", "T2", some "d2", none⟩

/-- A fresh feed item whose title carries markup. -/
def entryTagged : Entry := ⟨"u3", "<b>T</b>", some "plain body", none⟩

/-- The JP source channel id. -/
def chanJP : Nat := 1385660657700966510

/-- The US source channel id. -/
def chanUS : Nat := 1385660708506697959

/-- An environment in which only the JP channel and the global channel exist
and only the JP feed returns an item (`entryU1`). -/
def envOnlyJP (llm : String → LLMReply) (send : Nat → String → Option String) : Env :=
  { chanExists := fun c => c == chanJP || c == GLOBAL_CHANNEL_ID,
    fetch := fun u => if u == srcJP.2.rss_url then [entryU1] else [],
    llm := llm, send := send }

/-- Backend down: every generation request raises a transport exception;
deliveries succeed. -/
def envLlmDown : Env := envOnlyJP (fun _ => .exn "boom") (fun _ _ => none)

/-- Happy path: backend returns status 200 with body "S1"; deliveries succeed. -/
def envAllOk : Env := envOnlyJP (fun _ => .http 200 "S1") (fun _ _ => none)

/-- Delivery outage on the JP channel: the backend works, but every `send` to
the JP channel raises. -/
def envJPSendFail : Env :=
  envOnlyJP (fun _ => .http 200 "S1") (fun c _ => if c == chanJP then some "disconnected" else none)

/-- Environment whose JP feed returns the markup-titled `entryTagged`. -/
def envTagged : Env :=
  { chanExists := fun c => c == chanJP || c == GLOBAL_CHANNEL_ID,
    fetch := fun u => if u == srcJP.2.rss_url then [entryTagged] else [],
    llm := fun _ => .http 200 "S1", send := fun _ _ => none }

/-- Environment in which JP and US both have one fresh item, all channels
exist, the backend works, but sends to the JP channel raise. -/
def envTwo : Env :=
  { chanExists := fun c => c == chanJP || c == chanUS || c == GLOBAL_CHANNEL_ID,
    fetch := fun u =>
      if u == srcJP.2.rss_url then [entryU1]
      else if u == srcUS.2.rss_url then [entryU2] else [],
    llm := fun _ => .http 200 "S1",
    send := fun c _ => if c == chanJP then some "disconnected" else none }

/-! ### Store lemmas -/

/-- Membership form of `is_posted`. -/
theorem posted_iff (db : DB) (u : String) :
    is_posted db u = true ↔ ∃ r ∈ db, r.1 = u := by
  simp [is_posted]

/-- Recording one url keeps every already-posted url posted. -/
theorem posted_mono (db : DB) (u s u' : String) (h : is_posted db u' = true) :
    is_posted (add_article db u s) u' = true := by
  unfold add_article
  split
  · exact h
  · rcases (posted_iff db u').1 h with ⟨r, hr, hru⟩
    exact (posted_iff _ u').2 ⟨r, by simp [hr], hru⟩

/-- After `add_article db u s` the url `u` is posted. -/
theorem posted_add_self (db : DB) (u s : String) :
    is_posted (add_article db u s) u = true := by
  unfold add_article
  split
  · assumption
  · exact (posted_iff _ u).2 ⟨(u, s), by simp, rfl⟩

/-- Recording one url does not change the posted status of a different url. -/
theorem posted_add_ne (db : DB) (u s u' : String) (h : u' ≠ u) :
    is_posted (add_article db u s) u' = is_posted db u' := by
  unfold add_article
  split
  · rfl
  · show (db ++ [(u, s)]).any (fun r => r.1 == u') = db.any (fun r => r.1 == u')
    rw [List.any_append]
    have hne : (([(u, s)] : DB).any fun r => r.1 == u') = false := by
      simp [Ne.symm h]
    rw [hne, Bool.or_false]

/-- A url that is not posted has no row. -/
theorem countUrl_of_not_posted (db : DB) (u : String) (h : is_posted db u = false) :
    countUrl db u = 0 := by
  unfold is_posted at h
  unfold countUrl
  have hnil : db.filter (fun r => r.1 == u) = [] := by
    rw [List.filter_eq_nil_iff]
    intro r hr
    have := (List.any_eq_false).1 h r hr
    simpa using this
  simp [hnil]

/-- Row count after an insert: unchanged on duplicate, one new row otherwise. -/
theorem countUrl_add_article (db : DB) (u s u' : String) :
    countUrl (add_article db u s) u' =
      if is_posted db u = true then countUrl db u'
      else countUrl db u' + (if u = u' then 1 else 0) := by
  unfold add_article
  split
  · rfl
  · unfold countUrl
    rw [List.filter_append]
    by_cases hu : u = u' <;> simp [hu]

/-- Lemma: `add_article` is idempotent: a second insert of the same url is a no-op. -/
theorem add_article_idem (db : DB) (u s s' : String) :
    add_article (add_article db u s) u s' = add_article db u s := by
  have h := posted_add_self db u s
  show (if is_posted (add_article db u s) u = true then add_article db u s
        else add_article db u s ++ [(u, s')]) = add_article db u s
  rw [if_pos h]

/-- Every reachable store state has at most one row per url. -/
theorem reachable_countUrl_le_one (db : DB) (h : Reachable db) (u : String) :
    countUrl db u ≤ 1 := by
  induction h with
  | empty => simp [countUrl]
  | step db' u' s' _ ih =>
    rw [countUrl_add_article]
    split
    · exact ih
    · next hnp =>
      by_cases hu : u' = u
      · subst hu
        have : countUrl db' u' = 0 :=
          countUrl_of_not_posted db' u' (by simpa using hnp)
        simp [this]
      · simpa [hu] using ih

/-- Inserting into a reachable store leaves exactly one row for that url. -/
theorem countUrl_add_article_self (db : DB) (h : Reachable db) (u s : String) :
    countUrl (add_article db u s) u = 1 := by
  rw [countUrl_add_article]
  split
  · next hp =>
    have hle := reachable_countUrl_le_one db h u
    have hge : 1 ≤ countUrl db u := by
      unfold countUrl
      rcases (posted_iff db u).1 hp with ⟨r, hr, hru⟩
      have hmem : r ∈ db.filter (fun r => r.1 == u) :=
        List.mem_filter.2 ⟨hr, by simp [hru]⟩
      exact List.length_pos_of_mem hmem
    omega
  · next hnp =>
    have hz : countUrl db u = 0 :=
      countUrl_of_not_posted db u (by simpa using hnp)
    simp [hz]

/-- C4: `recordProcessed` (`add_article`) is idempotent under duplicate-key
insertion: inserting the same url twice is the same as inserting it once and
succeeds silently; starting from any store state reachable through the
store's operations, the double insert leaves exactly one row for that url;
and every reachable state has at most one row per canonical url. -/
theorem c4_add_article_idempotent :
    (∀ (db : DB) (u s s' : String),
        add_article (add_article db u s) u s' = add_article db u s)
    ∧ (∀ (db : DB) (u s s' : String), Reachable db →
        countUrl (add_article (add_article db u s) u s') u = 1)
    ∧ (∀ (db : DB), Reachable db → ∀ u, countUrl db u ≤ 1) := by
  refine ⟨add_article_idem, ?_, reachable_countUrl_le_one⟩
  intro db u s s' h
  rw [add_article_idem]
  exact countUrl_add_article_self db h u s

/-- C4 witness: the double insert into the empty store, which is reachable,
leaves exactly one row for the url. -/
theorem c4_witness :
    Reachable ([] : DB)
    ∧ countUrl (add_article (add_article [] "u1" "s1") "u1" "s2") "u1" = 1 :=
  ⟨Reachable.empty, c4_add_article_idempotent.2.1 [] "u1" "s1" "s2" Reachable.empty⟩

/-! ### Per-entry pipeline lemmas -/

/-- A posted entry is skipped: no store change, no actions, no exception. -/
theorem processEntry_posted (env : Env) (country : String) (cid : Nat) (db : DB) (ent : Entry)
    (h : is_posted db ent.link = true) :
    processEntry env country cid db ent = ⟨db, [], none⟩ := by
  unfold processEntry
  dsimp only
  rw [h]
  rfl

/-- Normal form of `processEntry` on a fresh entry: both enrichment calls
return (as strings), then the outcome is decided by the two `send` calls. -/
theorem processEntry_fresh (env : Env) (country : String) (cid : Nat) (db : DB) (ent : Entry)
    (h : is_posted db ent.link = false) :
    processEntry env country cid db ent =
      match env.send cid (messageOf env ent) with
      | some e =>
          ⟨db, [Action.llmCall ent.link "summary" (summaryInstruction ++ prepText (rawTextOf ent)),
                Action.llmCall ent.link "title" (titleInstruction ++ ent.title),
                Action.sendMsg ent.link cid (messageOf env ent)], some e⟩
      | none =>
        if env.chanExists GLOBAL_CHANNEL_ID then
          match env.send GLOBAL_CHANNEL_ID ("[" ++ country ++ "] " ++ messageOf env ent) with
          | some e =>
              ⟨db, [Action.llmCall ent.link "summary" (summaryInstruction ++ prepText (rawTextOf ent)),
                    Action.llmCall ent.link "title" (titleInstruction ++ ent.title),
                    Action.sendMsg ent.link cid (messageOf env ent),
                    Action.sendMsg ent.link GLOBAL_CHANNEL_ID
                      ("[" ++ country ++ "] " ++ messageOf env ent)], some e⟩
          | none =>
              ⟨add_article db ent.link (keyPointsOf env ent),
               [Action.llmCall ent.link "summary" (summaryInstruction ++ prepText (rawTextOf ent)),
                Action.llmCall ent.link "title" (titleInstruction ++ ent.title),
                Action.sendMsg ent.link cid (messageOf env ent),
                Action.sendMsg ent.link GLOBAL_CHANNEL_ID
                  ("[" ++ country ++ "] " ++ messageOf env ent),
                Action.record ent.link (keyPointsOf env ent)], none⟩
        else
          ⟨add_article db ent.link (keyPointsOf env ent),
           [Action.llmCall ent.link "summary" (summaryInstruction ++ prepText (rawTextOf ent)),
            Action.llmCall ent.link "title" (titleInstruction ++ ent.title),
            Action.sendMsg ent.link cid (messageOf env ent),
            Action.record ent.link (keyPointsOf env ent)], none⟩ := by
  unfold processEntry
  dsimp only
  rw [h]
  rfl

/-- A raised exception on the source-channel send aborts the entry: the store
is unchanged, no shared-destination attempt and no record are made. -/
theorem processEntry_send_fail (env : Env) (country : String) (cid : Nat) (db : DB) (ent : Entry)
    (e : String) (h : is_posted db ent.link = false)
    (hs : env.send cid (messageOf env ent) = some e) :
    processEntry env country cid db ent =
      ⟨db, [Action.llmCall ent.link "summary" (summaryInstruction ++ prepText (rawTextOf ent)),
            Action.llmCall ent.link "title" (titleInstruction ++ ent.title),
            Action.sendMsg ent.link cid (messageOf env ent)], some e⟩ := by
  rw [processEntry_fresh env country cid db ent h, hs]

/-- A raised exception on the shared-destination send aborts the entry after
the source-channel delivery: the store is unchanged and no record is made. -/
theorem processEntry_glob_fail (env : Env) (country : String) (cid : Nat) (db : DB) (ent : Entry)
    (e : String) (h : is_posted db ent.link = false)
    (hs : env.send cid (messageOf env ent) = none)
    (hg : env.chanExists GLOBAL_CHANNEL_ID = true)
    (hgs : env.send GLOBAL_CHANNEL_ID ("[" ++ country ++ "] " ++ messageOf env ent) = some e) :
    processEntry env country cid db ent =
      ⟨db, [Action.llmCall ent.link "summary" (summaryInstruction ++ prepText (rawTextOf ent)),
            Action.llmCall ent.link "title" (titleInstruction ++ ent.title),
            Action.sendMsg ent.link cid (messageOf env ent),
            Action.sendMsg ent.link GLOBAL_CHANNEL_ID
              ("[" ++ country ++ "] " ++ messageOf env ent)], some e⟩ := by
  rw [processEntry_fresh env country cid db ent h, hs, hg]
  rw [if_pos rfl, hgs]

/-- Successful processing with the shared channel found: both deliveries are
attempted and the entry is recorded with its generated key points. -/
theorem processEntry_record_glob (env : Env) (country : String) (cid : Nat) (db : DB) (ent : Entry)
    (h : is_posted db ent.link = false)
    (hs : env.send cid (messageOf env ent) = none)
    (hg : env.chanExists GLOBAL_CHANNEL_ID = true)
    (hgs : env.send GLOBAL_CHANNEL_ID ("[" ++ country ++ "] " ++ messageOf env ent) = none) :
    processEntry env country cid db ent =
      ⟨add_article db ent.link (keyPointsOf env ent),
       [Action.llmCall ent.link "summary" (summaryInstruction ++ prepText (rawTextOf ent)),
        Action.llmCall ent.link "title" (titleInstruction ++ ent.title),
        Action.sendMsg ent.link cid (messageOf env ent),
        Action.sendMsg ent.link GLOBAL_CHANNEL_ID ("[" ++ country ++ "] " ++ messageOf env ent),
        Action.record ent.link (keyPointsOf env ent)], none⟩ := by
  rw [processEntry_fresh env country cid db ent h, hs, hg]
  rw [if_pos rfl, hgs]

/-- Successful processing when the shared channel is not found: only the
source delivery is attempted and the entry is recorded. -/
theorem processEntry_record_noglob (env : Env) (country : String) (cid : Nat) (db : DB)
    (ent : Entry) (h : is_posted db ent.link = false)
    (hs : env.send cid (messageOf env ent) = none)
    (hg : env.chanExists GLOBAL_CHANNEL_ID = false) :
    processEntry env country cid db ent =
      ⟨add_article db ent.link (keyPointsOf env ent),
       [Action.llmCall ent.link "summary" (summaryInstruction ++ prepText (rawTextOf ent)),
        Action.llmCall ent.link "title" (titleInstruction ++ ent.title),
        Action.sendMsg ent.link cid (messageOf env ent),
        Action.record ent.link (keyPointsOf env ent)], none⟩ := by
  rw [processEntry_fresh env country cid db ent h, hs, hg]
  rw [if_neg (by simp)]

/-- Every action produced by one loop iteration is tagged with the link of
the entry being processed. -/
theorem processEntry_actUrl (env : Env) (country : String) (cid : Nat) (db : DB) (ent : Entry) :
    ∀ a ∈ (processEntry env country cid db ent).acts, actUrl a = ent.link := by
  by_cases h : is_posted db ent.link = true
  · rw [processEntry_posted env country cid db ent h]
    intro a ha
    simp at ha
  · rw [processEntry_fresh env country cid db ent (by simpa using h)]
    cases hs : env.send cid (messageOf env ent) with
    | some e => intro a ha; fin_cases ha <;> rfl
    | none =>
      by_cases hg : env.chanExists GLOBAL_CHANNEL_ID = true
      · rw [hg, if_pos rfl]
        cases hgs : env.send GLOBAL_CHANNEL_ID ("[" ++ country ++ "] " ++ messageOf env ent) with
        | some e => intro a ha; fin_cases ha <;> rfl
        | none => intro a ha; fin_cases ha <;> rfl
      · rw [Bool.not_eq_true] at hg
        rw [hg, if_neg (by simp)]
        intro a ha
        fin_cases ha <;> rfl

/-- One loop iteration either leaves the store unchanged or records exactly
the entry's link with its generated key points. -/
theorem processEntry_db_cases (env : Env) (country : String) (cid : Nat) (db : DB) (ent : Entry) :
    (processEntry env country cid db ent).db = db ∨
    (processEntry env country cid db ent).db = add_article db ent.link (keyPointsOf env ent) := by
  by_cases h : is_posted db ent.link = true
  · rw [processEntry_posted env country cid db ent h]
    exact Or.inl rfl
  · rw [processEntry_fresh env country cid db ent (by simpa using h)]
    cases hs : env.send cid (messageOf env ent) with
    | some e => exact Or.inl rfl
    | none =>
      by_cases hg : env.chanExists GLOBAL_CHANNEL_ID = true
      · rw [hg, if_pos rfl]
        cases hgs : env.send GLOBAL_CHANNEL_ID ("[" ++ country ++ "] " ++ messageOf env ent) with
        | some e => exact Or.inl rfl
        | none => exact Or.inr rfl
      · rw [Bool.not_eq_true] at hg
        rw [hg, if_neg (by simp)]
        exact Or.inr rfl

/-- One loop iteration keeps every already-posted url posted. -/
theorem processEntry_posted_mono (env : Env) (country : String) (cid : Nat) (db : DB)
    (ent : Entry) (u : String) (h : is_posted db u = true) :
    is_posted (processEntry env country cid db ent).db u = true := by
  rcases processEntry_db_cases env country cid db ent with hd | hd <;> rw [hd]
  · exact h
  · exact posted_mono _ _ _ _ h

/-- A posted url stays posted across the whole per-source entry loop. -/
theorem runEntries_posted_mono (env : Env) (country : String) (cid : Nat) (l : List Entry) :
    ∀ (db : DB) (u : String), is_posted db u = true →
      is_posted (runEntries env country cid db l).db u = true := by
  induction l with
  | nil => intro db u h; exact h
  | cons ent rest ih =>
    intro db u h
    unfold runEntries
    dsimp only
    cases he : (processEntry env country cid db ent).err with
    | some e =>
      exact processEntry_posted_mono env country cid db ent u h
    | none =>
      exact ih _ u (processEntry_posted_mono env country cid db ent u h)

/-- One loop iteration produces no action tagged with an already-posted url. -/
theorem processEntry_actsFor_posted (env : Env) (country : String) (cid : Nat) (db : DB)
    (ent : Entry) (u : String) (h : is_posted db u = true) :
    actsFor u (processEntry env country cid db ent).acts = [] := by
  by_cases hl : ent.link = u
  · rw [processEntry_posted env country cid db ent (hl ▸ h)]
    rfl
  · unfold actsFor
    rw [List.filter_eq_nil_iff]
    intro a ha
    have ht := processEntry_actUrl env country cid db ent a ha
    simp [ht, hl]

/-- The entry loop produces no enrichment, dispatch or record action for an
already-posted url: such an entry is skipped whenever it comes up. -/
theorem runEntries_actsFor_posted (env : Env) (country : String) (cid : Nat) (l : List Entry) :
    ∀ (db : DB) (u : String), is_posted db u = true →
      actsFor u (runEntries env country cid db l).acts = [] := by
  induction l with
  | nil => intro db u h; rfl
  | cons ent rest ih =>
    intro db u h
    unfold runEntries
    dsimp only
    cases he : (processEntry env country cid db ent).err with
    | some e =>
      exact processEntry_actsFor_posted env country cid db ent u h
    | none =>
      show actsFor u ((processEntry env country cid db ent).acts ++
        (runEntries env country cid (processEntry env country cid db ent).db rest).acts) = []
      unfold actsFor
      rw [List.filter_append]
      rw [show ((processEntry env country cid db ent).acts.filter fun a => actUrl a == u) =
            actsFor u (processEntry env country cid db ent).acts from rfl]
      rw [processEntry_actsFor_posted env country cid db ent u h]
      rw [show (((runEntries env country cid (processEntry env country cid db ent).db rest).acts).filter
            fun a => actUrl a == u) =
            actsFor u (runEntries env country cid (processEntry env country cid db ent).db rest).acts
          from rfl]
      rw [ih _ u (processEntry_posted_mono env country cid db ent u h)]
      rfl

/-- A posted url stays posted across one source's processing. -/
theorem process_rss_posted_mono (env : Env) (country : String) (config : SourceConfig)
    (db : DB) (u : String) (h : is_posted db u = true) :
    is_posted (process_rss env country config db).db u = true := by
  unfold process_rss process_rss_full
  cases config.channel_id with
  | none => exact h
  | some cid =>
    dsimp only
    split
    · split
      · exact h
      · exact runEntries_posted_mono env country cid _ db u h
    · exact h

/-- One source's processing produces no action for an already-posted url. -/
theorem process_rss_actsFor_posted (env : Env) (country : String) (config : SourceConfig)
    (db : DB) (u : String) (h : is_posted db u = true) :
    actsFor u (process_rss env country config db).acts = [] := by
  unfold process_rss process_rss_full
  cases config.channel_id with
  | none => rfl
  | some cid =>
    dsimp only
    split
    · split
      · rfl
      · exact runEntries_actsFor_posted env country cid _ db u h
    · rfl

/-- A posted url stays posted across a whole poll cycle's source list. -/
theorem processSources_posted_mono (env : Env) (srcs : List (String × SourceConfig)) :
    ∀ (db : DB) (u : String), is_posted db u = true →
      is_posted (processSources env srcs db).db u = true := by
  induction srcs with
  | nil => intro db u h; exact h
  | cons src rest ih =>
    intro db u h
    exact ih _ u (process_rss_posted_mono env src.1 src.2 db u h)

/-- A poll cycle over any source list produces no action for a url already in
the store when the cycle starts. -/
theorem processSources_actsFor_posted (env : Env) (srcs : List (String × SourceConfig)) :
    ∀ (db : DB) (u : String), is_posted db u = true →
      actsFor u (processSources env srcs db).acts = [] := by
  induction srcs with
  | nil => intro db u h; rfl
  | cons src rest ih =>
    intro db u h
    show actsFor u ((process_rss env src.1 src.2 db).acts ++
      (processSources env rest (process_rss env src.1 src.2 db).db).acts) = []
    unfold actsFor
    rw [List.filter_append]
    rw [show ((process_rss env src.1 src.2 db).acts.filter fun a => actUrl a == u) =
          actsFor u (process_rss env src.1 src.2 db).acts from rfl]
    rw [process_rss_actsFor_posted env src.1 src.2 db u h]
    rw [show (((processSources env rest (process_rss env src.1 src.2 db).db).acts).filter
          fun a => actUrl a == u) =
          actsFor u (processSources env rest (process_rss env src.1 src.2 db).db).acts from rfl]
    rw [ih _ u (process_rss_posted_mono env src.1 src.2 db u h)]
    rfl

/-- The entry loop on a single entry is exactly one `processEntry` step. -/
theorem runEntries_single (env : Env) (country : String) (cid : Nat) (db : DB) (ent : Entry) :
    runEntries env country cid db [ent] = processEntry env country cid db ent := by
  unfold runEntries
  dsimp only
  cases he : (processEntry env country cid db ent).err with
  | some e =>
    simp only [he]
    conv_lhs => rw [← he]
  | none =>
    simp only [he]
    show (⟨(processEntry env country cid db ent).db,
           (processEntry env country cid db ent).acts ++ [], none⟩ : EntriesRes) = _
    rw [List.append_nil]
    conv_lhs => rw [← he]

/-- When the channel id is set, the channel is found and the feed is
non-empty, processing a source is the entry loop over the first 3 entries. -/
theorem process_rss_run (env : Env) (country : String) (config : SourceConfig) (cid : Nat)
    (db : DB) (hcid : config.channel_id = some cid)
    (hchan : env.chanExists cid = true)
    (hne : (env.fetch config.rss_url).isEmpty = false) :
    process_rss env country config db =
      ⟨(runEntries env country cid db ((env.fetch config.rss_url).take 3)).db,
       (runEntries env country cid db ((env.fetch config.rss_url).take 3)).acts⟩ := by
  unfold process_rss process_rss_full
  rw [hcid]
  dsimp only
  rw [hchan, if_pos rfl, hne]
  rw [if_neg (by simp)]

/-- The source loop splits over list append: the second half runs from the
store state left by the first half and the actions concatenate. -/
theorem processSources_append (env : Env) (l1 l2 : List (String × SourceConfig)) :
    ∀ db : DB, processSources env (l1 ++ l2) db =
      ⟨(processSources env l2 (processSources env l1 db).db).db,
       (processSources env l1 db).acts ++
         (processSources env l2 (processSources env l1 db).db).acts⟩ := by
  induction l1 with
  | nil => intro db; simp [processSources]
  | cons src rest ih =>
    intro db
    obtain ⟨country, config⟩ := src
    show (⟨(processSources env (rest ++ l2) (process_rss env country config db).db).db,
           (process_rss env country config db).acts ++
             (processSources env (rest ++ l2) (process_rss env country config db).db).acts⟩ :
          CycleRes) = _
    rw [ih]
    show _ = (⟨(processSources env l2
                 (processSources env rest (process_rss env country config db).db).db).db,
              ((process_rss env country config db).acts ++
                (processSources env rest (process_rss env country config db).db).acts) ++
                (processSources env l2
                  (processSources env rest (process_rss env country config db).db).db).acts⟩ :
             CycleRes)
    rw [List.append_assoc]

/-- Every action of the entry loop is tagged with the link of one of the
entries handed to the loop. -/
theorem runEntries_actUrl (env : Env) (country : String) (cid : Nat) (l : List Entry) :
    ∀ (db : DB) (a : Action), a ∈ (runEntries env country cid db l).acts →
      actUrl a ∈ l.map Entry.link := by
  induction l with
  | nil => intro db a ha; simp [runEntries] at ha
  | cons ent rest ih =>
    intro db a
    unfold runEntries
    dsimp only
    cases he : (processEntry env country cid db ent).err with
    | some e =>
      intro ha
      have ht := processEntry_actUrl env country cid db ent a ha
      rw [List.map_cons, ht]
      exact List.mem_cons_self _ _
    | none =>
      intro ha
      rcases List.mem_append.1 ha with h1 | h2
      · have ht := processEntry_actUrl env country cid db ent a h1
        rw [List.map_cons, ht]
        exact List.mem_cons_self _ _
      · rw [List.map_cons]
        exact List.mem_cons_of_mem _ (ih _ a h2)

/-- Successful processing of a fresh entry (all sends deliver): the entry is
recorded with its generated key points, no exception escapes, and the action
log holds exactly one record action. -/
theorem processEntry_success (env : Env) (country : String) (cid : Nat) (db : DB) (ent : Entry)
    (hfresh : is_posted db ent.link = false)
    (hsend : ∀ c m, env.send c m = none) :
    (processEntry env country cid db ent).db = add_article db ent.link (keyPointsOf env ent) ∧
    (processEntry env country cid db ent).err = none ∧
    (processEntry env country cid db ent).acts.filter isRecord =
      [Action.record ent.link (keyPointsOf env ent)] := by
  by_cases hg : env.chanExists GLOBAL_CHANNEL_ID = true
  · rw [processEntry_record_glob env country cid db ent hfresh (hsend _ _) hg (hsend _ _)]
    exact ⟨rfl, rfl, rfl⟩
  · rw [Bool.not_eq_true] at hg
    rw [processEntry_record_noglob env country cid db ent hfresh (hsend _ _) hg]
    exact ⟨rfl, rfl, rfl⟩

/-- When all sends deliver and the handed entries are fresh with pairwise
distinct links, the entry loop records every one of them, one record action
each, and no exception escapes. -/
theorem runEntries_success (env : Env) (country : String) (cid : Nat) (l : List Entry) :
    ∀ db : DB, (∀ c m, env.send c m = none) →
      (∀ ent ∈ l, is_posted db ent.link = false) →
      (l.map Entry.link).Nodup →
      ((runEntries env country cid db l).acts.filter isRecord).length = l.length ∧
      (runEntries env country cid db l).err = none := by
  induction l with
  | nil => intro db _ _ _; exact ⟨rfl, rfl⟩
  | cons ent rest ih =>
    intro db hsend hfresh hnodup
    obtain ⟨hdb, herr, hrec⟩ :=
      processEntry_success env country cid db ent (hfresh ent (by simp)) hsend
    rw [List.map_cons, List.nodup_cons] at hnodup
    have hfresh2 : ∀ ent2 ∈ rest, is_posted (processEntry env country cid db ent).db ent2.link = false := by
      intro ent2 hmem
      rw [hdb]
      have hne : ent2.link ≠ ent.link := by
        intro heq
        exact hnodup.1 (heq ▸ List.mem_map_of_mem Entry.link hmem)
      rw [posted_add_ne db ent.link (keyPointsOf env ent) ent2.link hne]
      exact hfresh ent2 (List.mem_cons_of_mem _ hmem)
    obtain ⟨hlen, herr2⟩ := ih (processEntry env country cid db ent).db hsend hfresh2 hnodup.2
    unfold runEntries
    dsimp only
    rw [herr]
    constructor
    · rw [List.filter_append, List.length_append, hrec, hlen]
      simp [Nat.add_comm]
    · exact herr2

/-! ### Claim theorems -/

/-- C1 counterexample: with the generation backend raising a transport
exception on every call (`envLlmDown`), the poll cycle still creates a
ProcessedRecord for the item — with the error string as its summary — and a
second cycle performs zero enrichment calls for it, so the item is NOT
retried, contradicting the claim that a failed enrichment aborts the item
with no record. -/
theorem c1_counterexample :
    (news_loop envLlmDown []).db = [("u1", "LLM Error: boom")] ∧
    summaryCalls (news_loop envLlmDown (news_loop envLlmDown []).db).acts "u1" = 0 := by
  decide

/-- C1 amended: enrichment failure does not abort an item.  `query_llm`
converts a backend transport exception into the string `"LLM Error: <e>"`,
which becomes the item's key points; with deliveries succeeding, the item is
recorded with that error string as its summary and is therefore posted (not
retried) afterwards. -/
theorem c1_enrich_failure_still_recorded (env : Env) (country : String) (config : SourceConfig)
    (cid : Nat) (db : DB) (ent : Entry) (e : String)
    (hcid : config.channel_id = some cid)
    (hchan : env.chanExists cid = true)
    (hfetch : env.fetch config.rss_url = [ent])
    (hfresh : is_posted db ent.link = false)
    (hexn : env.llm (summaryInstruction ++ prepText (rawTextOf ent)) = LLMReply.exn e)
    (hsend : ∀ c m, env.send c m = none) :
    (process_rss env country config db).db = add_article db ent.link ("LLM Error: " ++ e) ∧
    Action.record ent.link ("LLM Error: " ++ e) ∈ (process_rss env country config db).acts ∧
    is_posted (process_rss env country config db).db ent.link = true := by
  have hkp : keyPointsOf env ent = "LLM Error: " ++ e := by
    unfold keyPointsOf llmRaw
    rw [hexn]
  have hne : (env.fetch config.rss_url).isEmpty = false := by rw [hfetch]; rfl
  have hrr := process_rss_run env country config cid db hcid hchan hne
  rw [hfetch] at hrr
  rw [show ([ent] : List Entry).take 3 = [ent] from rfl, runEntries_single] at hrr
  obtain ⟨hdb, _herr, hrec⟩ := processEntry_success env country cid db ent hfresh hsend
  rw [hrr]
  refine ⟨?_, ?_, ?_⟩
  · show (processEntry env country cid db ent).db = _
    rw [hdb, hkp]
  · show Action.record ent.link ("LLM Error: " ++ e) ∈ (processEntry env country cid db ent).acts
    have hmem : Action.record ent.link (keyPointsOf env ent) ∈
        (processEntry env country cid db ent).acts.filter isRecord := by
      rw [hrec]
      exact List.mem_cons_self _ _
    rw [hkp] at hmem
    exact (List.mem_filter.1 hmem).1
  · show is_posted (processEntry env country cid db ent).db ent.link = true
    rw [hdb]
    exact posted_add_self db ent.link _

/-- C1 witness: the amended behavior at the JP source with the backend down. -/
theorem c1_witness :
    (∀ c m, envLlmDown.send c m = none) ∧
    Action.record entryU1.link ("LLM Error: " ++ "boom")
      ∈ (process_rss envLlmDown "JP" srcJP.2 []).acts :=
  ⟨fun _ _ => rfl,
   (c1_enrich_failure_still_recorded envLlmDown "JP" srcJP.2 chanJP [] entryU1 "boom"
      rfl rfl (by decide) rfl rfl (fun _ _ => rfl)).2.1⟩

/-- C3 counterexample: the same item presented in two consecutive cycles is
enriched twice when the first cycle's delivery fails — the first cycle
enriches but cannot record (the send raises), so the second cycle enriches
again, contradicting at-most-once enrichment across two cycles. -/
theorem c3_counterexample :
    summaryCalls ((news_loop envJPSendFail []).acts ++
      (news_loop envAllOk (news_loop envJPSendFail []).db).acts) "u1" = 2 := by
  decide

/-- C3 amended: an item found processed in the store is skipped — a poll
cycle starting from a store in which the item's url is posted performs no
enrichment, no dispatch and no record for it, and the url stays posted.
Hence once a cycle has recorded the item, later cycles invoke neither the
Enricher nor the Fanout Dispatcher for it; at-most-once across two cycles
holds whenever the first cycle actually recorded the item. -/
theorem c3_posted_item_skipped (env : Env) (db : DB) (u : String)
    (h : is_posted db u = true) :
    actsFor u (news_loop env db).acts = [] ∧
    is_posted (news_loop env db).db u = true :=
  ⟨processSources_actsFor_posted env NEWS_SOURCES db u h,
   processSources_posted_mono env NEWS_SOURCES db u h⟩

/-- C3 witness: after a successful first cycle records "u1", a second cycle
produces no action at all for "u1". -/
theorem c3_witness :
    is_posted (news_loop envAllOk []).db "u1" = true ∧
    actsFor "u1" (news_loop envAllOk (news_loop envAllOk []).db).acts = [] :=
  ⟨by decide,
   (c3_posted_item_skipped envAllOk (news_loop envAllOk []).db "u1" (by decide)).1⟩

/-- C5: sources are visited in registry order, and a failure while processing
one source — an exception reaching the per-source handler, e.g. a raised
send — does not abort the remaining sources: the cycle's result is exactly
the sources before it, the failed source, then every later source fully
processed from the store state the failed source left behind. -/
theorem c5_per_source_isolation (env : Env) (db : DB)
    (pre post : List (String × SourceConfig)) (src : String × SourceConfig)
    (hreg : NEWS_SOURCES = pre ++ src :: post)
    (_hfail : (process_rss_full env src.1 src.2 (processSources env pre db).db).err.isSome = true) :
    (news_loop env db).db =
      (processSources env post
        (process_rss env src.1 src.2 (processSources env pre db).db).db).db ∧
    (news_loop env db).acts =
      (processSources env pre db).acts ++
        (process_rss env src.1 src.2 (processSources env pre db).db).acts ++
        (processSources env post
          (process_rss env src.1 src.2 (processSources env pre db).db).db).acts := by
  unfold news_loop
  rw [hreg, processSources_append]
  obtain ⟨country, config⟩ := src
  constructor
  · rfl
  · show (processSources env pre db).acts ++
        ((process_rss env country config (processSources env pre db).db).acts ++
          (processSources env post
            (process_rss env country config (processSources env pre db).db).db).acts) = _
    rw [← List.append_assoc]

/-- C5 witness: in `envTwo` the JP source's processing raises (its send
fails) and the cycle still equals JP's partial work followed by the full
processing of all later sources; in particular US's item "u2" is recorded. -/
theorem c5_witness :
    (process_rss_full envTwo srcJP.1 srcJP.2 (processSources envTwo [] []).db).err.isSome = true ∧
    (news_loop envTwo []).db =
      (processSources envTwo [srcUS, srcGB, srcFR, srcDE, srcIT, srcCA, srcIN, srcCN]
        (process_rss envTwo srcJP.1 srcJP.2 (processSources envTwo [] []).db).db).db ∧
    is_posted (news_loop envTwo []).db "u2" = true :=
  ⟨by decide,
   (c5_per_source_isolation envTwo [] []
      [srcUS, srcGB, srcFR, srcDE, srcIT, srcCA, srcIN, srcCN] srcJP rfl (by decide)).1,
   by decide⟩

/-- C2 counterexample: in `envJPSendFail` enrichment succeeds (the backend
answers 200 and one summary call is made for "u1"), the delivery to the
source channel fails, and NO ProcessedRecord is created — the store stays
empty — contradicting the claim that a delivery failure does not prevent
`recordProcessed`. -/
theorem c2_counterexample :
    summaryCalls (news_loop envJPSendFail []).acts "u1" = 1 ∧
    (news_loop envJPSendFail []).acts.filter isRecord = [] ∧
    (news_loop envJPSendFail []).db = [] := by
  decide

/-- C2 amended: a raised delivery exception aborts the item before
`add_article`: the store is unchanged, the exception escapes to the
per-source handler (aborting the source's remaining entries), no record
action is produced, and the item stays unposted — so it is retried on the
next cycle rather than recorded. -/
theorem c2_delivery_failure_prevents_record (env : Env) (country : String) (cid : Nat)
    (db : DB) (ent : Entry) (rest : List Entry) (e : String)
    (hfresh : is_posted db ent.link = false)
    (hs : env.send cid (messageOf env ent) = some e) :
    (runEntries env country cid db (ent :: rest)).db = db ∧
    (runEntries env country cid db (ent :: rest)).err = some e ∧
    (runEntries env country cid db (ent :: rest)).acts.filter isRecord = [] ∧
    is_posted (runEntries env country cid db (ent :: rest)).db ent.link = false := by
  have hpe := processEntry_send_fail env country cid db ent e hfresh hs
  unfold runEntries
  dsimp only
  rw [hpe]
  exact ⟨rfl, rfl, rfl, hfresh⟩

/-- C2 witness: with the JP send failing, the single-entry loop leaves the
store empty. -/
theorem c2_witness :
    is_posted ([] : DB) entryU1.link = false ∧
    envJPSendFail.send chanJP (messageOf envJPSendFail entryU1) = some "disconnected" ∧
    (runEntries envJPSendFail "JP" chanJP [] [entryU1]).db = [] :=
  ⟨rfl, rfl,
   (c2_delivery_failure_prevents_record envJPSendFail "JP" chanJP [] entryU1 [] "disconnected"
      rfl rfl).1⟩

/-- C6 counterexample: in `envJPSendFail` the global channel exists, the
delivery to the JP channel is attempted and raises, and no delivery to the
shared destination is ever attempted — the failure on one destination blocks
the other, contradicting the claim of independent deliveries. -/
theorem c6_counterexample :
    envJPSendFail.chanExists GLOBAL_CHANNEL_ID = true ∧
    sentChannels (news_loop envJPSendFail []).acts = [chanJP] := by
  decide

/-- C6 amended: the two deliveries are sequential and dependent, not
independent: the source-channel send runs first, and if it raises, the
shared-destination send is never attempted; only when the source send
delivers (and the shared channel is found) are both attempted, regardless of
the shared send's own outcome. -/
theorem c6_sequential_dispatch (env : Env) (country : String) (cid : Nat) (db : DB)
    (ent : Entry) (hfresh : is_posted db ent.link = false) :
    (∀ e, env.send cid (messageOf env ent) = some e →
       sentChannels (processEntry env country cid db ent).acts = [cid]) ∧
    (env.send cid (messageOf env ent) = none → env.chanExists GLOBAL_CHANNEL_ID = true →
       sentChannels (processEntry env country cid db ent).acts = [cid, GLOBAL_CHANNEL_ID]) := by
  constructor
  · intro e hs
    rw [processEntry_send_fail env country cid db ent e hfresh hs]
    rfl
  · intro hs hg
    cases hgs : env.send GLOBAL_CHANNEL_ID ("[" ++ country ++ "] " ++ messageOf env ent) with
    | some e =>
      rw [processEntry_glob_fail env country cid db ent e hfresh hs hg hgs]
      rfl
    | none =>
      rw [processEntry_record_glob env country cid db ent hfresh hs hg hgs]
      rfl

/-- C6 witness: when the JP send raises, the only attempted channel is JP. -/
theorem c6_witness :
    envJPSendFail.send chanJP (messageOf envJPSendFail entryU1) = some "disconnected" ∧
    sentChannels (processEntry envJPSendFail "JP" chanJP [] entryU1).acts = [chanJP] :=
  ⟨rfl,
   (c6_sequential_dispatch envJPSendFail "JP" chanJP [] entryU1 rfl).1 "disconnected" rfl⟩

/-- C7 counterexample: `query_llm` is not total over every mode — a mode
other than "summary" and "title" leaves the Python local
`system_instruction` unassigned and the call raises an unbound-local error
instead of returning a string. -/
theorem c7_counterexample :
    query_llm envAllOk "t" "x" = Except.error "UnboundLocalError: system_instruction" := rfl

/-- C7 amended: for the two modes actually used, "summary" and "title",
`query_llm` always returns a string: a non-200 backend status yields
`"Error: <status>"` and a transport exception yields `"LLM Error: <e>"` as a
normal return value, and on a failing summary call that error string flows
into both the dispatched message and the persisted summary of the record. -/
theorem c7_error_strings_flow (env : Env) (text : String) :
    query_llm env text "summary" = Except.ok (llmRaw env (summaryInstruction ++ text)) ∧
    query_llm env text "title" = Except.ok (llmRaw env (titleInstruction ++ text)) ∧
    (∀ st b, env.llm (summaryInstruction ++ text) = LLMReply.http st b → st ≠ 200 →
       query_llm env text "summary" = Except.ok ("Error: " ++ toString st)) ∧
    (∀ e, env.llm (summaryInstruction ++ text) = LLMReply.exn e →
       query_llm env text "summary" = Except.ok ("LLM Error: " ++ e)) ∧
    (∀ (country : String) (cid : Nat) (db : DB) (ent : Entry) (e : String),
       text = prepText (rawTextOf ent) →
       is_posted db ent.link = false →
       (∀ c m, env.send c m = none) →
       env.llm (summaryInstruction ++ text) = LLMReply.exn e →
       Action.record ent.link ("LLM Error: " ++ e) ∈ (processEntry env country cid db ent).acts ∧
       Action.sendMsg ent.link cid
           ("**" ++ headlineOf env ent ++ "**\n\n" ++ ("LLM Error: " ++ e) ++ "\n\n" ++ ent.link)
         ∈ (processEntry env country cid db ent).acts) := by
  refine ⟨rfl, rfl, ?_, ?_, ?_⟩
  · intro st b hb hst
    show Except.ok (llmRaw env (summaryInstruction ++ text)) = _
    unfold llmRaw
    rw [hb]
    dsimp only
    rw [if_neg hst]
  · intro e he
    show Except.ok (llmRaw env (summaryInstruction ++ text)) = _
    unfold llmRaw
    rw [he]
  · intro country cid db ent e htext hfresh hsend hexn
    subst htext
    have hkp : keyPointsOf env ent = "LLM Error: " ++ e := by
      unfold keyPointsOf llmRaw
      rw [hexn]
    have hmsg : messageOf env ent =
        "**" ++ headlineOf env ent ++ "**\n\n" ++ ("LLM Error: " ++ e) ++ "\n\n" ++ ent.link := by
      unfold messageOf
      rw [hkp]
    by_cases hg : env.chanExists GLOBAL_CHANNEL_ID = true
    · rw [processEntry_record_glob env country cid db ent hfresh (hsend _ _) hg (hsend _ _)]
      rw [hkp, hmsg]
      constructor
      · simp
      · simp
    · rw [Bool.not_eq_true] at hg
      rw [processEntry_record_noglob env country cid db ent hfresh (hsend _ _) hg]
      rw [hkp, hmsg]
      constructor
      · simp
      · simp

/-- C7 witness: with the backend raising, the summary-mode call returns the
error string as a value. -/
theorem c7_witness :
    envLlmDown.llm (summaryInstruction ++ "d1") = LLMReply.exn "boom" ∧
    query_llm envLlmDown "d1" "summary" = Except.ok ("LLM Error: " ++ "boom") :=
  ⟨rfl, (c7_error_strings_flow envLlmDown "d1").2.2.2.1 "boom" rfl⟩

/-- An entry with link `u`, title "T" and plain body "d", used to build a
ten-item feed. -/
def mkEnt (u : String) : Entry := ⟨u, "T", some "d", none⟩

/-- A feed of ten entries with pairwise distinct links. -/
def tenEntries : List Entry :=
  [mkEnt "a1", mkEnt "a2", mkEnt "a3", mkEnt "a4", mkEnt "a5",
   mkEnt "a6", mkEnt "a7", mkEnt "a8", mkEnt "a9", mkEnt "a10"]

/-- Environment whose JP feed returns ten fresh items; every channel exists,
the backend answers 200, all deliveries succeed. -/
def envTen : Env :=
  { chanExists := fun _ => true,
    fetch := fun u => if u == srcJP.2.rss_url then tenEntries else [],
    llm := fun _ => .http 200 "S1",
    send := fun _ _ => none }

/-- C8: per source and cycle, only the newest three feed entries are ever
touched — every action of the source's processing is tagged with a link of
the first three entries — and on a ten-item feed of fresh, distinct items
with working deliveries, exactly three items are processed (three record
actions). -/
theorem c8_bounded_work (env : Env) (country : String) (config : SourceConfig) (cid : Nat)
    (db : DB)
    (hcid : config.channel_id = some cid)
    (hchan : env.chanExists cid = true)
    (hlen : (env.fetch config.rss_url).length = 10)
    (hsend : ∀ c m, env.send c m = none)
    (hfresh : ∀ ent ∈ (env.fetch config.rss_url).take 3, is_posted db ent.link = false)
    (hnodup : (((env.fetch config.rss_url).take 3).map Entry.link).Nodup) :
    (∀ a ∈ (process_rss env country config db).acts,
       actUrl a ∈ ((env.fetch config.rss_url).take 3).map Entry.link) ∧
    ((process_rss env country config db).acts.filter isRecord).length = 3 := by
  have hne : (env.fetch config.rss_url).isEmpty = false := by
    cases hE : env.fetch config.rss_url with
    | nil => rw [hE] at hlen; simp at hlen
    | cons a l => rfl
  have hrr := process_rss_run env country config cid db hcid hchan hne
  rw [hrr]
  constructor
  · intro a ha
    exact runEntries_actUrl env country cid _ db a ha
  · have hs := (runEntries_success env country cid ((env.fetch config.rss_url).take 3) db
      hsend hfresh hnodup).1
    rw [hs, List.length_take, hlen]
    omega

/-- C8 witness: the ten-item feed yields exactly three record actions. -/
theorem c8_witness :
    (envTen.fetch srcJP.2.rss_url).length = 10 ∧
    ((process_rss envTen "JP" srcJP.2 []).acts.filter isRecord).length = 3 :=
  ⟨by decide,
   (c8_bounded_work envTen "JP" srcJP.2 chanJP [] rfl rfl (by decide) (fun _ _ => rfl)
      (by decide) (by decide)).2⟩

/-- C9 counterexample: the headline enrichment call for `entryTagged` reaches
the backend with the raw title `"<b>T</b>"`, markup intact (its stripped form
would be "T"), contradicting the claim that markup is stripped from the
input of both enrichment calls. -/
theorem c9_counterexample :
    Action.llmCall "u3" "title" (titleInstruction ++ "<b>T</b>")
      ∈ (news_loop envTagged []).acts ∧
    stripHtml "<b>T</b>" = "T" := by
  decide

/-- C9 amended: only the body text is stripped of markup before the summary
call — the headline call receives `entry.title` unchanged.  The first two
actions of a fresh entry's processing are the summary call on the prepared
(stripped) body and the title call on the raw title; and whenever the chosen
body text contains a `<`, the prepared text is exactly its tag-stripped
form. -/
theorem c9_strip_only_body (env : Env) (country : String) (cid : Nat) (db : DB)
    (ent : Entry) (hfresh : is_posted db ent.link = false) :
    (processEntry env country cid db ent).acts.take 2 =
      [Action.llmCall ent.link "summary" (summaryInstruction ++ prepText (rawTextOf ent)),
       Action.llmCall ent.link "title" (titleInstruction ++ ent.title)] ∧
    ((rawTextOf ent).data.contains '<' = true →
       prepText (rawTextOf ent) = stripHtml (rawTextOf ent)) := by
  constructor
  · rw [processEntry_fresh env country cid db ent hfresh]
    cases hs : env.send cid (messageOf env ent) with
    | some e => rfl
    | none =>
      by_cases hg : env.chanExists GLOBAL_CHANNEL_ID = true
      · rw [hg, if_pos rfl]
        cases hgs : env.send GLOBAL_CHANNEL_ID ("[" ++ country ++ "] " ++ messageOf env ent) with
        | some e => rfl
        | none => rfl
      · rw [Bool.not_eq_true] at hg
        rw [hg, if_neg (by simp)]
        rfl
  · intro hc
    have hne : ¬ rawTextOf ent = "" := by
      intro h0
      rw [h0] at hc
      exact absurd hc (by decide)
    unfold prepText
    rw [if_neg hne, if_pos hc]

/-- C9 witness: the two enrichment inputs of `entryTagged`. -/
theorem c9_witness :
    is_posted ([] : DB) entryTagged.link = false ∧
    (processEntry envTagged "JP" chanJP [] entryTagged).acts.take 2 =
      [Action.llmCall entryTagged.link "summary"
         (summaryInstruction ++ prepText (rawTextOf entryTagged)),
       Action.llmCall entryTagged.link "title" (titleInstruction ++ entryTagged.title)] :=
  ⟨rfl, (c9_strip_only_body envTagged "JP" chanJP [] entryTagged rfl).1⟩

/-- C10: for a fresh item with working deliveries and the shared channel
found, the dispatched message is exactly the fixed template — bolded
headline, blank line, bullet summary, blank line, canonical URL — and the
shared-destination message is the same message prefixed with the source
identifier in brackets. -/
theorem c10_message_template (env : Env) (country : String) (cid : Nat) (db : DB) (ent : Entry)
    (hfresh : is_posted db ent.link = false)
    (hsend : ∀ c m, env.send c m = none)
    (hg : env.chanExists GLOBAL_CHANNEL_ID = true) :
    (processEntry env country cid db ent).acts =
      [Action.llmCall ent.link "summary" (summaryInstruction ++ prepText (rawTextOf ent)),
       Action.llmCall ent.link "title" (titleInstruction ++ ent.title),
       Action.sendMsg ent.link cid
         ("**" ++ headlineOf env ent ++ "**\n\n" ++ keyPointsOf env ent ++ "\n\n" ++ ent.link),
       Action.sendMsg ent.link GLOBAL_CHANNEL_ID
         ("[" ++ country ++ "] " ++
           ("**" ++ headlineOf env ent ++ "**\n\n" ++ keyPointsOf env ent ++ "\n\n" ++ ent.link)),
       Action.record ent.link (keyPointsOf env ent)] := by
  rw [processEntry_record_glob env country cid db ent hfresh (hsend _ _) hg (hsend _ _)]
  rfl

/-- C10 witness: the template at the JP source on the happy path. -/
theorem c10_witness :
    envAllOk.chanExists GLOBAL_CHANNEL_ID = true ∧
    (processEntry envAllOk "JP" chanJP [] entryU1).acts =
      [Action.llmCall entryU1.link "summary" (summaryInstruction ++ prepText (rawTextOf entryU1)),
       Action.llmCall entryU1.link "title" (titleInstruction ++ entryU1.title),
       Action.sendMsg entryU1.link chanJP
         ("**" ++ headlineOf envAllOk entryU1 ++ "**\n\n" ++ keyPointsOf envAllOk entryU1 ++
           "\n\n" ++ entryU1.link),
       Action.sendMsg entryU1.link GLOBAL_CHANNEL_ID
         ("[" ++ "JP" ++ "] " ++
           ("**" ++ headlineOf envAllOk entryU1 ++ "**\n\n" ++ keyPointsOf envAllOk entryU1 ++
             "\n\n" ++ entryU1.link)),
       Action.record entryU1.link (keyPointsOf envAllOk entryU1)] :=
  ⟨rfl, c10_message_template envAllOk "JP" chanJP [] entryU1 rfl (fun _ _ => rfl) rfl⟩

end AutoNews
